import Mathlib

/-!
Verification of the `typed-array` crate: a unified handle (`TypedArray`) over
the nine concrete typed-array types of the JavaScript host (`js_sys`), with
dispatching accessors, concrete-variant conversions and untyped-value
classification.

The host binary-buffer runtime is an opaque collaborator of the crate; it is
modelled here following the capability description of the specification (§3,
§6): a typed array is a view (buffer reference, byte offset, element length)
of fixed element width, the untyped host value is either one of the nine
array variants or something else, and the type-test-and-cast capability
either yields the concrete value or returns the input unchanged. The crate's
own code (`src/lib.rs`) is translated definition by definition below the host
model.
-/

set_option autoImplicit false

/-- The nine element kinds of the host's typed arrays (spec §3 table). -/
inductive ElementKind where
  | I8 | U8 | U8C | I16 | U16 | I32 | U32 | F32 | F64
deriving DecidableEq

/-- Element width in bytes of each kind (spec §3 table). -/
def ElementKind.width : ElementKind → Nat
  | .I8 => 1
  | .U8 => 1
  | .U8C => 1
  | .I16 => 2
  | .U16 => 2
  | .I32 => 4
  | .U32 => 4
  | .F32 => 4
  | .F64 => 8

/-- Host-side reference identity of an `ArrayBuffer`. `root n` is a buffer
allocated by the host directly; `sliceOf r b e` is the fresh buffer the host
allocates for `slice(b, e)` on a view of buffer `r`. A freshly allocated
buffer is structurally larger than its parent, which captures the one
identity fact the crate's surface needs: the buffer of a slice is never
reference-identical to the buffer of the receiver. -/
inductive BufRef where
  | root : Nat → BufRef
  | sliceOf : BufRef → Nat → Nat → BufRef
deriving DecidableEq

/-- The host `ArrayBuffer` appears in the crate only as a pass-through
reference, so it is modelled by its reference identity. -/
abbrev ArrayBuffer := BufRef

/-- A typed-array view as the host stores it: the buffer it was constructed
over, its byte offset within that buffer, and its length in elements. -/
structure ArrayView where
  buffer : BufRef
  byteOffset : Nat
  length : Nat
deriving DecidableEq

/-- Host `subarray(b, e)` on a view of element width `w` (ECMAScript
`%TypedArray%.prototype.subarray`, inputs already non-negative): indices are
clamped to the view's length, the result shares the buffer and window. -/
def ArrayView.subarrayW (w : Nat) (a : ArrayView) (b e : Nat) : ArrayView :=
  { buffer := a.buffer
    byteOffset := a.byteOffset + min b a.length * w
    length := min e a.length - min b a.length }

/-- Host `slice(b, e)` on a view of element width `w`: indices are clamped,
the elements are copied into a freshly allocated buffer at offset zero. -/
def ArrayView.sliceW (_w : Nat) (a : ArrayView) (b e : Nat) : ArrayView :=
  { buffer := BufRef.sliceOf a.buffer b e
    byteOffset := 0
    length := min e a.length - min b a.length }

/-- One of the nine concrete host array types (`js_sys::Int8Array` … `Float64Array`),
indexed by its element kind so that the nine are distinct types sharing one
shape, exactly as the host presents them (spec §6). -/
structure HostTypedArray (k : ElementKind) where
  view : ArrayView
deriving DecidableEq

abbrev Int8Array := HostTypedArray ElementKind.I8
abbrev Uint8Array := HostTypedArray ElementKind.U8
abbrev Uint8ClampedArray := HostTypedArray ElementKind.U8C
abbrev Int16Array := HostTypedArray ElementKind.I16
abbrev Uint16Array := HostTypedArray ElementKind.U16
abbrev Int32Array := HostTypedArray ElementKind.I32
abbrev Uint32Array := HostTypedArray ElementKind.U32
abbrev Float32Array := HostTypedArray ElementKind.F32
abbrev Float64Array := HostTypedArray ElementKind.F64

/-- The universal untyped host value (`wasm_bindgen::JsValue`): either one of
the nine typed-array variants, or any other host value, abstracted by a
number. -/
inductive JsValue where
  | typedArr : (k : ElementKind) → HostTypedArray k → JsValue
  | other : Nat → JsValue

instance : DecidableEq JsValue := fun v w =>
  match v, w with
  | .typedArr k a, .typedArr k' a' =>
    if h : k = k' then
      if h2 : (h ▸ a : HostTypedArray k') = a' then
        .isTrue (by subst h; subst h2; rfl)
      else
        .isFalse (by subst h; intro hc; exact h2 (by cases hc; rfl))
    else .isFalse (by intro hc; cases hc; exact h rfl)
  | .typedArr _ _, .other _ => .isFalse (by intro hc; cases hc)
  | .other _, .typedArr _ _ => .isFalse (by intro hc; cases hc)
  | .other n, .other m =>
    if h : n = m then .isTrue (by rw [h]) else .isFalse (by intro hc; cases hc; exact h rfl)

/-- Host byte memory: contents of every buffer, addressed by buffer reference
and byte index. Only `set` touches it; views themselves carry no data. -/
abbrev Heap := BufRef → Nat → Nat

/-- Element count of the source value of a host `set` call (a typed array
contributes its length; any other source contributes nothing that the frame
properties below depend on). -/
def JsValue.srcLength : JsValue → Nat
  | .typedArr _ a => a.view.length
  | .other _ => 0

/-- Byte `j` of the converted source data of a host `set` call. Element
conversion rules are the host's own (spec §4.3 delegates them verbatim); the
model reads the source's bytes, which fixes the footprint exactly and leaves
the converted values abstract but concrete enough to evaluate. -/
def JsValue.srcByte (heap : Heap) : JsValue → Nat → Nat
  | .typedArr _ a, j => heap a.view.buffer (a.view.byteOffset + j)
  | .other n, _ => n

/-- Host capability `buffer()` on a concrete array. -/
def HostTypedArray.buffer {k : ElementKind} (a : HostTypedArray k) : ArrayBuffer :=
  a.view.buffer

/-- Host capability `length()` on a concrete array. -/
def HostTypedArray.length {k : ElementKind} (a : HostTypedArray k) : Nat :=
  a.view.length

/-- Host capability `byte_length()` on a concrete array: the byte size of the
view's window, element count times element width. -/
def HostTypedArray.byte_length {k : ElementKind} (a : HostTypedArray k) : Nat :=
  a.view.length * k.width

/-- Host capability `byte_offset()` on a concrete array. -/
def HostTypedArray.byte_offset {k : ElementKind} (a : HostTypedArray k) : Nat :=
  a.view.byteOffset

/-- Host capability `subarray(b, e)`: same concrete type, same buffer. -/
def HostTypedArray.subarray {k : ElementKind} (a : HostTypedArray k) (b e : Nat) :
    HostTypedArray k :=
  ⟨ArrayView.subarrayW k.width a.view b e⟩

/-- Host capability `slice(b, e)`: same concrete type, fresh buffer. -/
def HostTypedArray.slice {k : ElementKind} (a : HostTypedArray k) (b e : Nat) :
    HostTypedArray k :=
  ⟨ArrayView.sliceW k.width a.view b e⟩

/-- Host capability `set(src, offset)`: writes the converted source bytes into
this view's buffer starting at element index `offset`, and touches nothing
else. Returned as the updated heap, since the receiver is behind a shared
reference and the view's own fields never change. -/
def HostTypedArray.set {k : ElementKind} (a : HostTypedArray k) (src : JsValue)
    (offset : Nat) (heap : Heap) : Heap :=
  fun b i =>
    if b = a.view.buffer ∧ a.view.byteOffset + offset * k.width ≤ i ∧
        i < a.view.byteOffset + (offset + src.srcLength) * k.width then
      src.srcByte heap (i - (a.view.byteOffset + offset * k.width))
    else heap b i

/-- Host type-test capability (`JsCast::has_type::<T>` for the concrete array
type of kind `k`): the nine concrete types are mutually exclusive at the
host's type system (spec §4.1), so the test succeeds exactly on values of
that variant. -/
def jsHasType (k : ElementKind) : JsValue → Bool
  | .typedArr k' _ => decide (k' = k)
  | .other _ => false

/-- Host type-test-and-cast capability (`JsCast::dyn_into::<T>` for the
concrete array type of kind `k`): given an untyped value, either yields a
value of the target concrete type or returns the input unchanged (spec §6). -/
def jsDynInto (k : ElementKind) : JsValue → Except JsValue (HostTypedArray k)
  | .typedArr k' a => if h : k' = k then .ok (h ▸ a) else .error (.typedArr k' a)
  | .other n => .error (.other n)

/-- `Result::or_else` of the Rust standard library: keep a success, feed a
failure's payload to the fallback. -/
def resultOrElse {ε ε' α : Type} (r : Except ε α) (f : ε → Except ε' α) : Except ε' α :=
  match r with
  | .ok a => .ok a
  | .error e => f e

/-- `Result::map_err` of the Rust standard library. -/
def resultMapErr {ε ε' α : Type} (f : ε → ε') (r : Except ε α) : Except ε' α :=
  match r with
  | .ok a => .ok a
  | .error e => .error (f e)

/-- Error type returned when attempting to convert a `TypedArray` to a
specific typed array instance (`TryFromTypedArrayError` in `src/lib.rs`): a
unit struct with no payload. -/
structure TryFromTypedArrayError where
deriving DecidableEq

/-- Error type returned when attempting to convert a `JsValue` to a
`TypedArray` (`TryFromJsValueError` in `src/lib.rs`): a unit struct with no
payload. -/
structure TryFromJsValueError where
deriving DecidableEq

/-- The unified handle of `src/lib.rs`: `pub enum TypedArray`, one variant
per concrete host array type, each storing exactly one value of it. -/
inductive TypedArray where
  | Int8Array : Int8Array → TypedArray
  | Uint8Array : Uint8Array → TypedArray
  | Uint8ClampedArray : Uint8ClampedArray → TypedArray
  | Int16Array : Int16Array → TypedArray
  | Uint16Array : Uint16Array → TypedArray
  | Int32Array : Int32Array → TypedArray
  | Uint32Array : Uint32Array → TypedArray
  | Float32Array : Float32Array → TypedArray
  | Float64Array : Float64Array → TypedArray
deriving DecidableEq

/-- Discriminant of the handle: which element kind it wraps (the "tag" of the
spec's data model, §3). -/
def TypedArray.tag : TypedArray → ElementKind
  | .Int8Array _ => .I8
  | .Uint8Array _ => .U8
  | .Uint8ClampedArray _ => .U8C
  | .Int16Array _ => .I16
  | .Uint16Array _ => .U16
  | .Int32Array _ => .I32
  | .Uint32Array _ => .U32
  | .Float32Array _ => .F32
  | .Float64Array _ => .F64

/-- The nine `impl From<X> for TypedArray` generated by `impl_from!` in
`src/lib.rs`, collected over the kind index: each concrete array is wrapped
in the constructor of its own kind, `TypedArray::$arr(i)`. -/
def kindFrom : (k : ElementKind) → HostTypedArray k → TypedArray
  | .I8, a => TypedArray.Int8Array a
  | .U8, a => TypedArray.Uint8Array a
  | .U8C, a => TypedArray.Uint8ClampedArray a
  | .I16, a => TypedArray.Int16Array a
  | .U16, a => TypedArray.Uint16Array a
  | .I32, a => TypedArray.Int32Array a
  | .U32, a => TypedArray.Uint32Array a
  | .F32, a => TypedArray.Float32Array a
  | .F64, a => TypedArray.Float64Array a

/-- `impl TryFrom<TypedArray> for Int8Array` from `impl_from!(Int8Array)`:
`if let TypedArray::Int8Array(inner) = i { Ok(inner) } else { Err(TryFromTypedArrayError) }`. -/
def Int8Array.try_from : TypedArray → Except TryFromTypedArrayError Int8Array
  | .Int8Array inner => .ok inner
  | _ => .error ⟨⟩

/-- `impl TryFrom<TypedArray> for Uint8Array` from `impl_from!(Uint8Array)`. -/
def Uint8Array.try_from : TypedArray → Except TryFromTypedArrayError Uint8Array
  | .Uint8Array inner => .ok inner
  | _ => .error ⟨⟩

/-- `impl TryFrom<TypedArray> for Uint8ClampedArray` from `impl_from!(Uint8ClampedArray)`. -/
def Uint8ClampedArray.try_from : TypedArray → Except TryFromTypedArrayError Uint8ClampedArray
  | .Uint8ClampedArray inner => .ok inner
  | _ => .error ⟨⟩

/-- `impl TryFrom<TypedArray> for Int16Array` from `impl_from!(Int16Array)`. -/
def Int16Array.try_from : TypedArray → Except TryFromTypedArrayError Int16Array
  | .Int16Array inner => .ok inner
  | _ => .error ⟨⟩

/-- `impl TryFrom<TypedArray> for Uint16Array` from `impl_from!(Uint16Array)`. -/
def Uint16Array.try_from : TypedArray → Except TryFromTypedArrayError Uint16Array
  | .Uint16Array inner => .ok inner
  | _ => .error ⟨⟩

/-- `impl TryFrom<TypedArray> for Int32Array` from `impl_from!(Int32Array)`. -/
def Int32Array.try_from : TypedArray → Except TryFromTypedArrayError Int32Array
  | .Int32Array inner => .ok inner
  | _ => .error ⟨⟩

/-- `impl TryFrom<TypedArray> for Uint32Array` from `impl_from!(Uint32Array)`. -/
def Uint32Array.try_from : TypedArray → Except TryFromTypedArrayError Uint32Array
  | .Uint32Array inner => .ok inner
  | _ => .error ⟨⟩

/-- `impl TryFrom<TypedArray> for Float32Array` from `impl_from!(Float32Array)`. -/
def Float32Array.try_from : TypedArray → Except TryFromTypedArrayError Float32Array
  | .Float32Array inner => .ok inner
  | _ => .error ⟨⟩

/-- `impl TryFrom<TypedArray> for Float64Array` from `impl_from!(Float64Array)`. -/
def Float64Array.try_from : TypedArray → Except TryFromTypedArrayError Float64Array
  | .Float64Array inner => .ok inner
  | _ => .error ⟨⟩

/-- The nine `TryFrom<TypedArray>` extractors collected over the kind index,
each branch delegating to the macro-generated implementation above. -/
def kindTryFrom : (k : ElementKind) → TypedArray → Except TryFromTypedArrayError (HostTypedArray k)
  | .I8, t => Int8Array.try_from t
  | .U8, t => Uint8Array.try_from t
  | .U8C, t => Uint8ClampedArray.try_from t
  | .I16, t => Int16Array.try_from t
  | .U16, t => Uint16Array.try_from t
  | .I32, t => Int32Array.try_from t
  | .U32, t => Uint32Array.try_from t
  | .F32, t => Float32Array.try_from t
  | .F64, t => Float64Array.try_from t

/-- `TypedArray::buffer` of `src/lib.rs`: `match_every!(self, i, i.buffer())`. -/
def TypedArray.buffer : TypedArray → ArrayBuffer
  | .Int8Array i => i.buffer
  | .Uint8Array i => i.buffer
  | .Uint8ClampedArray i => i.buffer
  | .Int16Array i => i.buffer
  | .Uint16Array i => i.buffer
  | .Int32Array i => i.buffer
  | .Uint32Array i => i.buffer
  | .Float32Array i => i.buffer
  | .Float64Array i => i.buffer

/-- `TypedArray::subarray` of `src/lib.rs`:
`match_every!(self, i, i.subarray(begin, end).into())`. -/
def TypedArray.subarray : TypedArray → Nat → Nat → TypedArray
  | .Int8Array i, b, e => TypedArray.Int8Array (i.subarray b e)
  | .Uint8Array i, b, e => TypedArray.Uint8Array (i.subarray b e)
  | .Uint8ClampedArray i, b, e => TypedArray.Uint8ClampedArray (i.subarray b e)
  | .Int16Array i, b, e => TypedArray.Int16Array (i.subarray b e)
  | .Uint16Array i, b, e => TypedArray.Uint16Array (i.subarray b e)
  | .Int32Array i, b, e => TypedArray.Int32Array (i.subarray b e)
  | .Uint32Array i, b, e => TypedArray.Uint32Array (i.subarray b e)
  | .Float32Array i, b, e => TypedArray.Float32Array (i.subarray b e)
  | .Float64Array i, b, e => TypedArray.Float64Array (i.subarray b e)

/-- `TypedArray::slice` of `src/lib.rs`:
`match_every!(self, i, i.slice(begin, end).into())`. -/
def TypedArray.slice : TypedArray → Nat → Nat → TypedArray
  | .Int8Array i, b, e => TypedArray.Int8Array (i.slice b e)
  | .Uint8Array i, b, e => TypedArray.Uint8Array (i.slice b e)
  | .Uint8ClampedArray i, b, e => TypedArray.Uint8ClampedArray (i.slice b e)
  | .Int16Array i, b, e => TypedArray.Int16Array (i.slice b e)
  | .Uint16Array i, b, e => TypedArray.Uint16Array (i.slice b e)
  | .Int32Array i, b, e => TypedArray.Int32Array (i.slice b e)
  | .Uint32Array i, b, e => TypedArray.Uint32Array (i.slice b e)
  | .Float32Array i, b, e => TypedArray.Float32Array (i.slice b e)
  | .Float64Array i, b, e => TypedArray.Float64Array (i.slice b e)

/-- `TypedArray::length` of `src/lib.rs`: `match_every!(self, i, i.length())`. -/
def TypedArray.length : TypedArray → Nat
  | .Int8Array i => i.length
  | .Uint8Array i => i.length
  | .Uint8ClampedArray i => i.length
  | .Int16Array i => i.length
  | .Uint16Array i => i.length
  | .Int32Array i => i.length
  | .Uint32Array i => i.length
  | .Float32Array i => i.length
  | .Float64Array i => i.length

/-- `TypedArray::byte_length` of `src/lib.rs`:
`match_every!(self, i, i.byte_length())`. -/
def TypedArray.byte_length : TypedArray → Nat
  | .Int8Array i => i.byte_length
  | .Uint8Array i => i.byte_length
  | .Uint8ClampedArray i => i.byte_length
  | .Int16Array i => i.byte_length
  | .Uint16Array i => i.byte_length
  | .Int32Array i => i.byte_length
  | .Uint32Array i => i.byte_length
  | .Float32Array i => i.byte_length
  | .Float64Array i => i.byte_length

/-- `TypedArray::byte_offset` of `src/lib.rs`:
`match_every!(self, i, i.byte_offset())`. -/
def TypedArray.byte_offset : TypedArray → Nat
  | .Int8Array i => i.byte_offset
  | .Uint8Array i => i.byte_offset
  | .Uint8ClampedArray i => i.byte_offset
  | .Int16Array i => i.byte_offset
  | .Uint16Array i => i.byte_offset
  | .Int32Array i => i.byte_offset
  | .Uint32Array i => i.byte_offset
  | .Float32Array i => i.byte_offset
  | .Float64Array i => i.byte_offset

/-- `TypedArray::set` of `src/lib.rs`: `match_every!(self, i, i.set(src, offset))`.
The receiver is behind a shared reference and the call returns unit; its
observable effect is the updated host heap. -/
def TypedArray.set : TypedArray → JsValue → Nat → Heap → Heap
  | .Int8Array i, src, offset, heap => i.set src offset heap
  | .Uint8Array i, src, offset, heap => i.set src offset heap
  | .Uint8ClampedArray i, src, offset, heap => i.set src offset heap
  | .Int16Array i, src, offset, heap => i.set src offset heap
  | .Uint16Array i, src, offset, heap => i.set src offset heap
  | .Int32Array i, src, offset, heap => i.set src offset heap
  | .Uint32Array i, src, offset, heap => i.set src offset heap
  | .Float32Array i, src, offset, heap => i.set src offset heap
  | .Float64Array i, src, offset, heap => i.set src offset heap

/-- `TypedArray::has_type` of `src/lib.rs`: the nine host type tests combined
with short-circuit disjunction, in declaration order. -/
def TypedArray.has_type (i : JsValue) : Bool :=
  jsHasType .I8 i || jsHasType .U8 i || jsHasType .U8C i || jsHasType .I16 i ||
    jsHasType .U16 i || jsHasType .I32 i || jsHasType .U32 i || jsHasType .F32 i ||
    jsHasType .F64 i

/-- `TypedArray::dyn_into` of `src/lib.rs`: probe the nine concrete variants
in declaration order with the host's cast capability, wrapping the first
success via `From` and threading the unchanged value through each `or_else`. -/
def TypedArray.dyn_into (i : JsValue) : Except JsValue TypedArray :=
  let r := Except.map TypedArray.Int8Array (jsDynInto .I8 i)
  let r := resultOrElse r (fun e => Except.map TypedArray.Uint8Array (jsDynInto .U8 e))
  let r := resultOrElse r (fun e => Except.map TypedArray.Uint8ClampedArray (jsDynInto .U8C e))
  let r := resultOrElse r (fun e => Except.map TypedArray.Int16Array (jsDynInto .I16 e))
  let r := resultOrElse r (fun e => Except.map TypedArray.Uint16Array (jsDynInto .U16 e))
  let r := resultOrElse r (fun e => Except.map TypedArray.Int32Array (jsDynInto .I32 e))
  let r := resultOrElse r (fun e => Except.map TypedArray.Uint32Array (jsDynInto .U32 e))
  let r := resultOrElse r (fun e => Except.map TypedArray.Float32Array (jsDynInto .F32 e))
  resultOrElse r (fun e => Except.map TypedArray.Float64Array (jsDynInto .F64 e))

/-- `impl TryFrom<JsValue> for TypedArray` of `src/lib.rs`:
`TypedArray::dyn_into(i).map_err(|_| TryFromJsValueError)`. -/
def TypedArray.try_from (i : JsValue) : Except TryFromJsValueError TypedArray :=
  resultMapErr (fun _ => TryFromJsValueError.mk) (TypedArray.dyn_into i)

/-- Structural depth of a buffer reference; each slice allocation adds one. -/
def BufRef.depth : BufRef → Nat
  | .root _ => 0
  | .sliceOf r _ _ => r.depth + 1

/-- A slice-allocated buffer is never the buffer it was sliced from. -/
theorem BufRef.sliceOf_ne (r : BufRef) (b e : Nat) : BufRef.sliceOf r b e ≠ r := by
  intro h
  have hd : (BufRef.sliceOf r b e).depth = r.depth := by rw [h]
  simp [BufRef.depth] at hd

/-- Claim C1: for every element kind `k` and every concrete host array `x` of
kind `k`, promoting `x` to a `TypedArray` handle via `From` and then
extracting kind `k` via `TryFrom<TypedArray>` yields `Ok x` — the very same
array value, hence the same host reference, buffer and byte window — while
extracting any other kind `k'` yields `Err TryFromTypedArrayError`, the
extractor consuming the handle and returning no part of it. -/
theorem C1_roundtrip_extraction (k : ElementKind) (x : HostTypedArray k) :
    kindTryFrom k (kindFrom k x) = Except.ok x ∧
      ∀ k', k' ≠ k → kindTryFrom k' (kindFrom k x) = Except.error ⟨⟩ := by
  constructor
  · cases k <;> rfl
  · intro k' hne
    cases k <;> cases k' <;> first | exact absurd rfl hne | rfl

/-- Witness for C1 at kind U8 with a concrete array: extraction at the same
kind succeeds with the identical array, extraction at kind I8 fails. -/
theorem C1_roundtrip_extraction_witness :
    kindTryFrom ElementKind.U8
        (kindFrom ElementKind.U8 ⟨⟨BufRef.root 0, 0, 10⟩⟩) =
      Except.ok ⟨⟨BufRef.root 0, 0, 10⟩⟩ ∧
    ElementKind.I8 ≠ ElementKind.U8 ∧
    kindTryFrom ElementKind.I8
        (kindFrom ElementKind.U8 ⟨⟨BufRef.root 0, 0, 10⟩⟩) =
      Except.error ⟨⟩ :=
  ⟨(C1_roundtrip_extraction ElementKind.U8 ⟨⟨BufRef.root 0, 0, 10⟩⟩).1,
    by decide,
    (C1_roundtrip_extraction ElementKind.U8 ⟨⟨BufRef.root 0, 0, 10⟩⟩).2
      ElementKind.I8 (by decide)⟩

/-- Claim C2: `TypedArray::dyn_into` classifies any untyped host value: on a
typed-array value of kind `k` it returns `Ok` of the handle whose tag is the
constructor for `k` (the first and only probe of the ordered chain that can
succeed, the nine host types being mutually exclusive), and on any other
value all nine probes fail and it returns `Err` carrying the original input
value itself. -/
theorem C2_dyn_into_classifies (v : JsValue) :
    TypedArray.dyn_into v =
      match v with
      | JsValue.typedArr k a => Except.ok (kindFrom k a)
      | JsValue.other n => Except.error (JsValue.other n) := by
  cases v with
  | typedArr k a => cases k <;> rfl
  | other n => rfl

/-- Claim C3: for every kind `k` and concrete array `x`, the handle built
from `x` forwards each of the seven shared accessors to `x` unchanged:
`length`, `byte_length`, `byte_offset` and `buffer` agree with `x`'s own,
`subarray` and `slice` produce exactly `x`'s result re-wrapped under the same
kind, and `set` performs exactly `x`'s heap update. -/
theorem C3_accessors_forward (k : ElementKind) (x : HostTypedArray k)
    (b e o : Nat) (s : JsValue) (heap : Heap) :
    TypedArray.length (kindFrom k x) = x.length ∧
    TypedArray.byte_length (kindFrom k x) = x.byte_length ∧
    TypedArray.byte_offset (kindFrom k x) = x.byte_offset ∧
    TypedArray.buffer (kindFrom k x) = x.buffer ∧
    TypedArray.subarray (kindFrom k x) b e = kindFrom k (x.subarray b e) ∧
    TypedArray.slice (kindFrom k x) b e = kindFrom k (x.slice b e) ∧
    TypedArray.set (kindFrom k x) s o heap = x.set s o heap := by
  cases k <;> exact ⟨rfl, rfl, rfl, rfl, rfl, rfl, rfl⟩

/-- Length of a host subarray under in-range indices. -/
theorem subarrayW_len (w : Nat) (a : ArrayView) (b e : Nat) (hbe : b ≤ e)
    (he : e ≤ a.length) : (ArrayView.subarrayW w a b e).length = e - b := by
  simp [ArrayView.subarrayW, Nat.min_eq_left (le_trans hbe he), Nat.min_eq_left he]

/-- Length of a host slice under in-range indices. -/
theorem sliceW_len (w : Nat) (a : ArrayView) (b e : Nat) (hbe : b ≤ e)
    (he : e ≤ a.length) : (ArrayView.sliceW w a b e).length = e - b := by
  simp [ArrayView.sliceW, Nat.min_eq_left (le_trans hbe he), Nat.min_eq_left he]

/-- Claim C4: for any handle `h` and indices `b ≤ e ≤ h.length()`, both
`h.subarray(b, e)` and `h.slice(b, e)` are handles with the same tag as `h`
and length `e - b`; the subarray shares `h`'s underlying buffer (identical
`buffer()` reference) while the slice's buffer is a different reference. -/
theorem C4_subarray_slice_window (h : TypedArray) (b e : Nat) (hbe : b ≤ e)
    (he : e ≤ TypedArray.length h) :
    TypedArray.tag (TypedArray.subarray h b e) = TypedArray.tag h ∧
    TypedArray.length (TypedArray.subarray h b e) = e - b ∧
    TypedArray.tag (TypedArray.slice h b e) = TypedArray.tag h ∧
    TypedArray.length (TypedArray.slice h b e) = e - b ∧
    TypedArray.buffer (TypedArray.subarray h b e) = TypedArray.buffer h ∧
    TypedArray.buffer (TypedArray.slice h b e) ≠ TypedArray.buffer h := by
  cases h with
  | Int8Array a =>
    exact ⟨rfl, subarrayW_len 1 a.view b e hbe he, rfl, sliceW_len 1 a.view b e hbe he,
      rfl, BufRef.sliceOf_ne _ _ _⟩
  | Uint8Array a =>
    exact ⟨rfl, subarrayW_len 1 a.view b e hbe he, rfl, sliceW_len 1 a.view b e hbe he,
      rfl, BufRef.sliceOf_ne _ _ _⟩
  | Uint8ClampedArray a =>
    exact ⟨rfl, subarrayW_len 1 a.view b e hbe he, rfl, sliceW_len 1 a.view b e hbe he,
      rfl, BufRef.sliceOf_ne _ _ _⟩
  | Int16Array a =>
    exact ⟨rfl, subarrayW_len 2 a.view b e hbe he, rfl, sliceW_len 2 a.view b e hbe he,
      rfl, BufRef.sliceOf_ne _ _ _⟩
  | Uint16Array a =>
    exact ⟨rfl, subarrayW_len 2 a.view b e hbe he, rfl, sliceW_len 2 a.view b e hbe he,
      rfl, BufRef.sliceOf_ne _ _ _⟩
  | Int32Array a =>
    exact ⟨rfl, subarrayW_len 4 a.view b e hbe he, rfl, sliceW_len 4 a.view b e hbe he,
      rfl, BufRef.sliceOf_ne _ _ _⟩
  | Uint32Array a =>
    exact ⟨rfl, subarrayW_len 4 a.view b e hbe he, rfl, sliceW_len 4 a.view b e hbe he,
      rfl, BufRef.sliceOf_ne _ _ _⟩
  | Float32Array a =>
    exact ⟨rfl, subarrayW_len 4 a.view b e hbe he, rfl, sliceW_len 4 a.view b e hbe he,
      rfl, BufRef.sliceOf_ne _ _ _⟩
  | Float64Array a =>
    exact ⟨rfl, subarrayW_len 8 a.view b e hbe he, rfl, sliceW_len 8 a.view b e hbe he,
      rfl, BufRef.sliceOf_ne _ _ _⟩

/-- Witness for C4 on a concrete unsigned-16-bit handle of length 8 with
`subarray(2, 6)` and `slice(2, 6)`. -/
theorem C4_subarray_slice_window_witness :
    2 ≤ 6 ∧
    6 ≤ TypedArray.length (TypedArray.Uint16Array ⟨⟨BufRef.root 0, 0, 8⟩⟩) ∧
    (TypedArray.tag (TypedArray.subarray (TypedArray.Uint16Array ⟨⟨BufRef.root 0, 0, 8⟩⟩) 2 6) =
        TypedArray.tag (TypedArray.Uint16Array ⟨⟨BufRef.root 0, 0, 8⟩⟩) ∧
      TypedArray.length (TypedArray.subarray (TypedArray.Uint16Array ⟨⟨BufRef.root 0, 0, 8⟩⟩) 2 6) = 6 - 2 ∧
      TypedArray.tag (TypedArray.slice (TypedArray.Uint16Array ⟨⟨BufRef.root 0, 0, 8⟩⟩) 2 6) =
        TypedArray.tag (TypedArray.Uint16Array ⟨⟨BufRef.root 0, 0, 8⟩⟩) ∧
      TypedArray.length (TypedArray.slice (TypedArray.Uint16Array ⟨⟨BufRef.root 0, 0, 8⟩⟩) 2 6) = 6 - 2 ∧
      TypedArray.buffer (TypedArray.subarray (TypedArray.Uint16Array ⟨⟨BufRef.root 0, 0, 8⟩⟩) 2 6) =
        TypedArray.buffer (TypedArray.Uint16Array ⟨⟨BufRef.root 0, 0, 8⟩⟩) ∧
      TypedArray.buffer (TypedArray.slice (TypedArray.Uint16Array ⟨⟨BufRef.root 0, 0, 8⟩⟩) 2 6) ≠
        TypedArray.buffer (TypedArray.Uint16Array ⟨⟨BufRef.root 0, 0, 8⟩⟩)) :=
  ⟨by decide, by decide,
    C4_subarray_slice_window (TypedArray.Uint16Array ⟨⟨BufRef.root 0, 0, 8⟩⟩) 2 6
      (by decide) (by decide)⟩

/-- Claim C5: `TypedArray::has_type` answers exactly whether classification
would succeed — it equals `dyn_into`'s success flag on every untyped value —
and concretely it is true on every typed-array value of any of the nine
kinds and false on every value that is none of them. -/
theorem C5_has_type_iff_classifiable (v : JsValue) :
    TypedArray.has_type v = (TypedArray.dyn_into v).isOk ∧
    (∀ k a, TypedArray.has_type (JsValue.typedArr k a) = true) ∧
    (∀ n, TypedArray.has_type (JsValue.other n) = false) := by
  refine ⟨?_, ?_, ?_⟩
  · cases v with
    | typedArr k a => cases k <;> rfl
    | other n => rfl
  · intro k a
    cases k <;> rfl
  · intro n
    rfl

/-- Claim C6: the total classifier `TryFrom<JsValue> for TypedArray` succeeds
exactly when `dyn_into` succeeds, with the identical handle; when `dyn_into`
fails it discards the value and returns the unit error `TryFromJsValueError`.
Both paths return their error as a value of a total function — nothing is
raised out-of-band. -/
theorem C6_try_from_wraps_dyn_into (v : JsValue) :
    (TypedArray.try_from v).isOk = (TypedArray.dyn_into v).isOk ∧
    (∀ t, TypedArray.dyn_into v = Except.ok t →
      TypedArray.try_from v = Except.ok t) ∧
    ((TypedArray.dyn_into v).isOk = false →
      TypedArray.try_from v = Except.error TryFromJsValueError.mk) := by
  refine ⟨?_, ?_, ?_⟩
  · unfold TypedArray.try_from resultMapErr
    cases TypedArray.dyn_into v <;> rfl
  · intro t ht
    unfold TypedArray.try_from resultMapErr
    rw [ht]
  · intro hf
    unfold TypedArray.try_from resultMapErr
    cases hd : TypedArray.dyn_into v with
    | ok t => rw [hd] at hf; exact Bool.noConfusion hf
    | error e => rfl

/-- Witness for C6: on a concrete signed-8-bit array value the total
classifier returns the identical handle `dyn_into` returns, and on a plain
number it fails with the unit error. -/
theorem C6_try_from_wraps_dyn_into_witness :
    TypedArray.try_from (JsValue.typedArr ElementKind.I8 ⟨⟨BufRef.root 0, 0, 3⟩⟩) =
      Except.ok (TypedArray.Int8Array ⟨⟨BufRef.root 0, 0, 3⟩⟩) ∧
    (TypedArray.dyn_into (JsValue.other 5)).isOk = false ∧
    TypedArray.try_from (JsValue.other 5) = Except.error TryFromJsValueError.mk :=
  ⟨(C6_try_from_wraps_dyn_into (JsValue.typedArr ElementKind.I8 ⟨⟨BufRef.root 0, 0, 3⟩⟩)).2.1
      (TypedArray.Int8Array ⟨⟨BufRef.root 0, 0, 3⟩⟩) rfl,
    rfl,
    (C6_try_from_wraps_dyn_into (JsValue.other 5)).2.2 rfl⟩

/-- Claim C7: every handle reports `byte_length()` equal to `length()` times
the element width of its kind, and for non-zero-length handles the quotient
`byte_length() / length()` recovers the element width. -/
theorem C7_byte_length_is_width_times_length (h : TypedArray) :
    TypedArray.byte_length h = TypedArray.length h * (TypedArray.tag h).width ∧
    (TypedArray.length h ≠ 0 →
      TypedArray.byte_length h / TypedArray.length h = (TypedArray.tag h).width) := by
  cases h <;>
    exact ⟨rfl, fun hl => Nat.mul_div_cancel_left _ (Nat.pos_of_ne_zero hl)⟩

/-- Witness for C7 on a concrete 64-bit-float handle of length 10:
byte-length 80, and 80 / 10 recovers width 8. -/
theorem C7_byte_length_is_width_times_length_witness :
    TypedArray.byte_length (TypedArray.Float64Array ⟨⟨BufRef.root 0, 0, 10⟩⟩) =
      TypedArray.length (TypedArray.Float64Array ⟨⟨BufRef.root 0, 0, 10⟩⟩) *
        (TypedArray.tag (TypedArray.Float64Array ⟨⟨BufRef.root 0, 0, 10⟩⟩)).width ∧
    TypedArray.length (TypedArray.Float64Array ⟨⟨BufRef.root 0, 0, 10⟩⟩) ≠ 0 ∧
    TypedArray.byte_length (TypedArray.Float64Array ⟨⟨BufRef.root 0, 0, 10⟩⟩) /
        TypedArray.length (TypedArray.Float64Array ⟨⟨BufRef.root 0, 0, 10⟩⟩) =
      (TypedArray.tag (TypedArray.Float64Array ⟨⟨BufRef.root 0, 0, 10⟩⟩)).width :=
  ⟨(C7_byte_length_is_width_times_length (TypedArray.Float64Array ⟨⟨BufRef.root 0, 0, 10⟩⟩)).1,
    by decide,
    (C7_byte_length_is_width_times_length (TypedArray.Float64Array ⟨⟨BufRef.root 0, 0, 10⟩⟩)).2
      (by decide)⟩

/-- Claim C8: the handle is a tagged sum of exactly nine alternatives with no
other state: the tag of a promoted array is the kind it was promoted from,
every handle is the promotion of exactly one kind's concrete array (no empty
or unknown alternative), and the array-returning operations re-wrap their
result under the receiver's own tag. -/
theorem C8_tagged_sum_invariant :
    (∀ k x, TypedArray.tag (kindFrom k x) = k) ∧
    (∀ h : TypedArray, ∃ k, ∃ x : HostTypedArray k, h = kindFrom k x) ∧
    (∀ h b e, TypedArray.tag (TypedArray.subarray h b e) = TypedArray.tag h ∧
      TypedArray.tag (TypedArray.slice h b e) = TypedArray.tag h) := by
  refine ⟨fun k x => ?_, fun h => ?_, fun h b e => ?_⟩
  · cases k <;> rfl
  · cases h with
    | Int8Array a => exact ⟨ElementKind.I8, a, rfl⟩
    | Uint8Array a => exact ⟨ElementKind.U8, a, rfl⟩
    | Uint8ClampedArray a => exact ⟨ElementKind.U8C, a, rfl⟩
    | Int16Array a => exact ⟨ElementKind.I16, a, rfl⟩
    | Uint16Array a => exact ⟨ElementKind.U16, a, rfl⟩
    | Int32Array a => exact ⟨ElementKind.I32, a, rfl⟩
    | Uint32Array a => exact ⟨ElementKind.U32, a, rfl⟩
    | Float32Array a => exact ⟨ElementKind.F32, a, rfl⟩
    | Float64Array a => exact ⟨ElementKind.F64, a, rfl⟩
  · cases h <;> exact ⟨rfl, rfl⟩

/-- Frame of the host `set` on a concrete array: a byte that changes lies in
the receiver's buffer, at or after the window start shifted by the element
offset, and before the end of the written span. -/
theorem hostSet_frame {k : ElementKind} (a : HostTypedArray k) (s : JsValue)
    (o : Nat) (heap : Heap) (b : BufRef) (i : Nat)
    (hne : HostTypedArray.set a s o heap b i ≠ heap b i) :
    b = a.view.buffer ∧ a.view.byteOffset + o * k.width ≤ i ∧
      i < a.view.byteOffset + (o + s.srcLength) * k.width := by
  by_cases hc : b = a.view.buffer ∧ a.view.byteOffset + o * k.width ≤ i ∧
      i < a.view.byteOffset + (o + s.srcLength) * k.width
  · exact hc
  · exact absurd (by simp only [HostTypedArray.set]; exact if_neg hc) hne

/-- Claim C10: `TypedArray::set(src, offset)` takes the handle by shared
reference, returns nothing, and only updates host memory: in the embedding
the handle value — hence its tag, `buffer()`, `length()`, `byte_length()`
and `byte_offset()` — is untouched, and any byte the call changes lies in
the handle's own underlying buffer, inside the window starting at
`byte_offset + offset × width` and spanning the converted source. -/
theorem C10_set_frame (h : TypedArray) (s : JsValue) (o : Nat) (heap : Heap)
    (b : BufRef) (i : Nat)
    (hne : TypedArray.set h s o heap b i ≠ heap b i) :
    b = TypedArray.buffer h ∧
    TypedArray.byte_offset h + o * (TypedArray.tag h).width ≤ i ∧
    i < TypedArray.byte_offset h + (o + s.srcLength) * (TypedArray.tag h).width := by
  cases h <;> exact hostSet_frame _ _ _ _ _ _ hne

/-- Heap with recognizable contents in buffer `root 1`, used to exhibit a
byte actually changed by a concrete `set` call. -/
def sampleHeap : Heap := fun b _ => if b = BufRef.root 1 then 7 else 0

/-- Witness for C10: copying a 2-element unsigned-8-bit array living in
buffer `root 1` into a handle over buffer `root 0` at offset 0 changes byte 0
of buffer `root 0`, and that byte indeed lies in the handle's buffer within
the written window. -/
theorem C10_set_frame_witness :
    TypedArray.set (TypedArray.Uint8Array ⟨⟨BufRef.root 0, 0, 4⟩⟩)
        (JsValue.typedArr ElementKind.U8 ⟨⟨BufRef.root 1, 0, 2⟩⟩) 0 sampleHeap
        (BufRef.root 0) 0 ≠ sampleHeap (BufRef.root 0) 0 ∧
    (BufRef.root 0 =
        TypedArray.buffer (TypedArray.Uint8Array ⟨⟨BufRef.root 0, 0, 4⟩⟩) ∧
      TypedArray.byte_offset (TypedArray.Uint8Array ⟨⟨BufRef.root 0, 0, 4⟩⟩) +
          0 * (TypedArray.tag (TypedArray.Uint8Array ⟨⟨BufRef.root 0, 0, 4⟩⟩)).width ≤ 0 ∧
      0 < TypedArray.byte_offset (TypedArray.Uint8Array ⟨⟨BufRef.root 0, 0, 4⟩⟩) +
          (0 + (JsValue.typedArr ElementKind.U8 ⟨⟨BufRef.root 1, 0, 2⟩⟩).srcLength) *
            (TypedArray.tag (TypedArray.Uint8Array ⟨⟨BufRef.root 0, 0, 4⟩⟩)).width) :=
  ⟨by decide,
    C10_set_frame (TypedArray.Uint8Array ⟨⟨BufRef.root 0, 0, 4⟩⟩)
      (JsValue.typedArr ElementKind.U8 ⟨⟨BufRef.root 1, 0, 2⟩⟩) 0 sampleHeap
      (BufRef.root 0) 0 (by decide)⟩
